import Mathlib

/-!
Shallow embedding of the `load-checker` repository.

The repository contains three copies of the same steady-state page-load
detector:
* `src/unnamed/part_000`, first half: the prototype-based `LoadChecker`
  (constructor, `_usedInstance` single-use guard) — the primary copy;
* `src/unnamed/part_000`, second half: an object-literal copy with the same
  tick logic but no single-use guard;
* `src/public/javascripts/load-checker.js`: an object-literal copy whose
  `_nodeCountChangeObserver` differs — it does not reset
  `_steadyStateIntervals` on a detected change.

The DOM itself is modelled as an environment: the observers in the source
compute `_countElements(document.childNodes)`; here that computed element
count arrives as a parameter (`nodeCountAtTick` per polling tick,
`mutationBatches` for the counts seen by the `MutationObserver` callback
between ticks).  Time is modelled as ticks: tick `t` of the watch is the
instant `t * _CHECK_INTERVAL_MS` after `callWhenReadyToGo`.  At each tick
`t ≥ 1` the `setInterval` observer fires before the rescheduled
`_executeCallbackAfterPageIsLoaded` check (the interval was registered
before the `setTimeout` with the same deadline, and host timers fire in
registration order); the check at tick `0` is the synchronous call made by
`callWhenReadyToGo` itself, before any observer has run.

One further host parameter matters: inside
`_executeCallbackAfterPageIsLoaded`, the two `console.log` calls after the
callback invocation (part_000 lines 275 and 278, and the same lines in the
other two copies) read the free identifier `callback`, which is not a
parameter of that function.  Whether it resolves depends on the page:
the README example page declares a top-level `var callback`, other pages
do not, and reading an undeclared identifier throws a `ReferenceError`.
`globalCallbackDefined` records whether such a global binding is in
scope. -/

namespace LoadChecker

/-- Which observer function was handed to `setInterval` by
`_setupLoadChecker`. -/
inductive Strategy where
  | mutationBased
  | pollingBased
deriving DecidableEq, Repr

/-- The configuration constants set in the `LoadChecker` constructor
(`_CHECK_INTERVAL_MS`, `_READY_AFTER_N_STEADY_STATE_INTERVALS`,
`_EXIT_REGARDLESS_AFTER_MAX_INTERVALS`). -/
structure Config where
  checkIntervalMs : Nat
  readyAfterNSteadyStateIntervals : Nat
  exitRegardlessAfterMaxIntervals : Nat
deriving DecidableEq, Repr

/-- The values of the source constants: 500 ms, 5 steady intervals,
20 intervals maximum. -/
def defaultConfig : Config :=
  { checkIntervalMs := 500
    readyAfterNSteadyStateIntervals := 5
    exitRegardlessAfterMaxIntervals := 20 }

/-- The mutable per-instance state of a `LoadChecker`.  The `Nat`/`Bool`
fields mirror the fields set in the constructor; `intervalActive`,
`observerConnected`, `scheduledObserver` and `callbackRegistered` make the
held resources explicit: `intervalActive` is whether the
`setInterval` handle stored in `_domMutationOrNodeCountIntervalCheck` is
still ticking, `observerConnected` is whether a `MutationObserver`
subscription created by `_setupMutationObserverIfPossible` is still
observing, `scheduledObserver` records which observer function was passed
to `setInterval`, and `callbackRegistered` is whether `_user_callback` was
assigned. -/
structure LCState where
  lastKnownNodeCountForMutationEvent : Nat
  lastKnownNodeCountForNodeCountCheck : Nat
  mutationsCount : Nat
  intervalCount : Nat
  steadyStateIntervals : Nat
  usedInstance : Bool
  intervalActive : Bool
  observerConnected : Bool
  scheduledObserver : Option Strategy
  callbackRegistered : Bool
deriving DecidableEq, Repr

/-- The state produced by `new LoadChecker()`: all counters zero, no
resources held, instance unused. -/
def initialState : LCState :=
  { lastKnownNodeCountForMutationEvent := 0
    lastKnownNodeCountForNodeCountCheck := 0
    mutationsCount := 0
    intervalCount := 0
    steadyStateIntervals := 0
    usedInstance := false
    intervalActive := false
    observerConnected := false
    scheduledObserver := none
    callbackRegistered := false }

/-- `_nodeCountChangeObserver` as written in both halves of
`src/unnamed/part_000`: if the element count changed since the last check,
reset `_steadyStateIntervals` to `0` and record the new count; otherwise
increment `_steadyStateIntervals`.  `currentNodeCount` stands for
`this._countElements(document.childNodes)`. -/
def nodeCountChangeObserver (s : LCState) (currentNodeCount : Nat) : LCState :=
  if s.lastKnownNodeCountForNodeCountCheck ≠ currentNodeCount then
    { s with steadyStateIntervals := 0
             lastKnownNodeCountForNodeCountCheck := currentNodeCount }
  else
    { s with steadyStateIntervals := s.steadyStateIntervals + 1 }

/-- `LoadChecker._nodeCountChangeObserver` as written in
`src/public/javascripts/load-checker.js` (lines 65–76): on a detected
change it records the new count but does NOT reset
`_steadyStateIntervals`; on no change it increments the counter. -/
def nodeCountChangeObserverPublicJs (s : LCState) (currentNodeCount : Nat) : LCState :=
  if s.lastKnownNodeCountForNodeCountCheck ≠ currentNodeCount then
    { s with lastKnownNodeCountForNodeCountCheck := currentNodeCount }
  else
    { s with steadyStateIntervals := s.steadyStateIntervals + 1 }

/-- The anonymous `MutationObserver` callback installed by
`_setupMutationObserverIfPossible`: recompute the element count; always
record it in `_lastKnownNodeCountForMutationEvent`; increment
`_mutationsCount` only when the count differs from the previously recorded
one. -/
def mutationObserverCallback (s : LCState) (currentNodeCount : Nat) : LCState :=
  let isNodeListCountChanging :=
    s.lastKnownNodeCountForMutationEvent ≠ currentNodeCount
  let s1 := { s with lastKnownNodeCountForMutationEvent := currentNodeCount }
  if isNodeListCountChanging then
    { s1 with mutationsCount := s1.mutationsCount + 1 }
  else
    s1

/-- `_domMutationsCountObserver`: if any counted mutations accumulated
since the last tick, reset both `_mutationsCount` and
`_steadyStateIntervals` to `0`; otherwise increment
`_steadyStateIntervals`. -/
def domMutationsCountObserver (s : LCState) : LCState :=
  if s.mutationsCount > 0 then
    { s with mutationsCount := 0, steadyStateIntervals := 0 }
  else
    { s with steadyStateIntervals := s.steadyStateIntervals + 1 }

/-- `_cleanupLoadChecker`: `clearInterval` on the stored handle (modelled
as dropping the periodic tick resource; `clearInterval` on a host does not
throw for a valid or null handle). -/
def cleanupLoadChecker (s : LCState) : LCState :=
  { s with intervalActive := false }

/-- Result of one `_isPageLoaded` call: returned `true`, returned `false`
(after incrementing `_intervalCount`), or threw the timeout error string. -/
inductive CheckOutcome where
  | loadedNow (s : LCState)
  | notLoaded (s : LCState)
  | timeoutThrown (s : LCState)
deriving DecidableEq, Repr

/-- `_isPageLoaded`: if `_steadyStateIntervals` has reached
`_READY_AFTER_N_STEADY_STATE_INTERVALS`, report loaded; otherwise
increment `_intervalCount` and throw the timeout error once it exceeds
`_EXIT_REGARDLESS_AFTER_MAX_INTERVALS`. -/
def isPageLoaded (cfg : Config) (s : LCState) : CheckOutcome :=
  if s.steadyStateIntervals ≥ cfg.readyAfterNSteadyStateIntervals then
    CheckOutcome.loadedNow s
  else
    let s1 := { s with intervalCount := s.intervalCount + 1 }
    if s1.intervalCount > cfg.exitRegardlessAfterMaxIntervals then
      CheckOutcome.timeoutThrown s1
    else
      CheckOutcome.notLoaded s1

/-- Observable events of one run, in order of occurrence. -/
inductive Event where
  | callbackInvoked
  | callbackErrorLogged
  | cleanup
  | errorRaised
deriving DecidableEq, Repr

/-- Result of one call to `_executeCallbackAfterPageIsLoaded`:
return normally after the callback path (`done`), schedule the next check
via `setTimeout` (`reschedule`), or let an exception propagate to the
caller (`raised`). -/
inductive ExecOutcome where
  | done (events : List Event) (s : LCState)
  | reschedule (s : LCState)
  | raised (events : List Event) (s : LCState)
deriving DecidableEq, Repr

/-- One call of `_executeCallbackAfterPageIsLoaded`.
`globalCallbackDefined` is whether the free identifier `callback` read by
the post-callback logs (part_000 lines 275 and 278) resolves to a global
binding; `cbOk` is whether the user callback returns normally (`false`:
it throws).

Loaded, global in scope: invoke the callback; its exception is caught by
the inner catch and logged; the `finally` runs `_cleanupLoadChecker`; the
function returns normally.

Loaded, no global in scope: the log after the invocation (line 275 on
success, or the inner catch's own log at line 278 on a callback error)
throws a `ReferenceError` when it evaluates `callback`; an exception
thrown inside the catch block is not caught again, so the `finally` runs
`_cleanupLoadChecker`, the outer catch runs `_cleanupLoadChecker` a
second time, and the `ReferenceError` is rethrown to the caller.

Not loaded: reschedule via `setTimeout`.  If `_isPageLoaded` threw the
timeout error, the outer catch runs `_cleanupLoadChecker` and rethrows. -/
def executeCallbackStep (cfg : Config) (globalCallbackDefined cbOk : Bool)
    (s : LCState) : ExecOutcome :=
  match isPageLoaded cfg s with
  | CheckOutcome.loadedNow s1 =>
      if globalCallbackDefined then
        if cbOk then
          ExecOutcome.done [Event.callbackInvoked, Event.cleanup]
            (cleanupLoadChecker s1)
        else
          ExecOutcome.done
            [Event.callbackInvoked, Event.callbackErrorLogged, Event.cleanup]
            (cleanupLoadChecker s1)
      else
        ExecOutcome.raised
          [Event.callbackInvoked, Event.cleanup, Event.cleanup,
           Event.errorRaised]
          (cleanupLoadChecker s1)
  | CheckOutcome.notLoaded s1 => ExecOutcome.reschedule s1
  | CheckOutcome.timeoutThrown s1 =>
      ExecOutcome.raised [Event.cleanup, Event.errorRaised]
        (cleanupLoadChecker s1)

/-- Terminal result of the tick loop: `loaded t` — the check at tick `t`
found the page loaded and returned normally from the callback path;
`failed t` — the check at tick `t` let an exception escape to the caller
(the timeout error, or the post-callback `ReferenceError` on a page with
no global `callback`); `outOfFuel` — the modelling fuel ran out while the
loop was still rescheduling. -/
inductive RunResult where
  | loaded (tick : Nat) (events : List Event) (final : LCState)
  | failed (tick : Nat) (events : List Event) (final : LCState)
  | outOfFuel (final : LCState)
deriving DecidableEq, Repr

/-- `some (true, t)` when the run ended normally at tick `t`,
`some (false, t)` when an exception was raised to the caller at tick `t`,
`none` when the fuel ran out. -/
def RunResult.verdict : RunResult → Option (Bool × Nat)
  | RunResult.loaded t _ _ => some (true, t)
  | RunResult.failed t _ _ => some (false, t)
  | RunResult.outOfFuel _ => none

/-- The events emitted by the terminal check of the run. -/
def RunResult.events : RunResult → List Event
  | RunResult.loaded _ ev _ => ev
  | RunResult.failed _ ev _ => ev
  | RunResult.outOfFuel _ => []

/-- The watcher state when the run ended. -/
def RunResult.finalState : RunResult → LCState
  | RunResult.loaded _ _ s => s
  | RunResult.failed _ _ s => s
  | RunResult.outOfFuel s => s

/-- The tick loop driven by `_executeCallbackAfterPageIsLoaded`
rescheduling itself every `_CHECK_INTERVAL_MS`.  `tick u s` is the state
update performed at tick `u` before the check runs: the `setInterval`
observer firing (plus, for the mutation strategy, the mutation-callback
deliveries that arrived since the previous tick).  The check at tick `t`
runs on the current state; on `reschedule` the loop advances to tick
`t + 1` (the first check, at tick `0`, is the synchronous call from
`callWhenReadyToGo` and is not preceded by an observer firing). -/
def driveLoop (cfg : Config) (globalCallbackDefined cbOk : Bool)
    (tick : Nat → LCState → LCState) :
    Nat → Nat → LCState → RunResult
  | fuel, t, s =>
    match executeCallbackStep cfg globalCallbackDefined cbOk s with
    | ExecOutcome.done ev s1 => RunResult.loaded t ev s1
    | ExecOutcome.raised ev s1 => RunResult.failed t ev s1
    | ExecOutcome.reschedule s1 =>
      match fuel with
      | 0 => RunResult.outOfFuel s1
      | fuel' + 1 =>
          driveLoop cfg globalCallbackDefined cbOk tick fuel' (t + 1)
            (tick (t + 1) s1)

/-- The errors `callWhenReadyToGo` can throw synchronously (the source
throws message strings; the model tags them). -/
inductive CallError where
  | reuseError
  | configurationError
deriving DecidableEq, Repr

/-- `_validateConfiguration`: throw the configuration error when
`_READY_AFTER_N_STEADY_STATE_INTERVALS ≥ _EXIT_REGARDLESS_AFTER_MAX_INTERVALS`. -/
def validateConfiguration (cfg : Config) : Except CallError Unit :=
  if cfg.readyAfterNSteadyStateIntervals ≥ cfg.exitRegardlessAfterMaxIntervals then
    Except.error CallError.configurationError
  else
    Except.ok ()

/-- `_initializeCounters`. -/
def initCounters (s : LCState) : LCState :=
  { s with steadyStateIntervals := 0
           mutationsCount := 0
           intervalCount := 0
           lastKnownNodeCountForMutationEvent := 0
           lastKnownNodeCountForNodeCountCheck := 0 }

/-- `_setupMutationObserverIfPossible`.  `mutationSupported` is whether
constructing the `MutationObserver` and calling `observe` succeeds; when
it does, the subscription is held (`observerConnected`) and `true` is
returned; when the capability is missing or `observe` throws, the local
catch returns `false` and the state is untouched. -/
def setupMutationObserverIfPossible (mutationSupported : Bool) (s : LCState) :
    LCState × Bool :=
  if mutationSupported then
    ({ s with observerConnected := true }, true)
  else
    (s, false)

/-- `_setupLoadChecker`: reset the counters, then start the `setInterval`
tick with `_domMutationsCountObserver` when the mutation observer was set
up, and with `_nodeCountChangeObserver` otherwise. -/
def setupLoadChecker (mutationSupported : Bool) (s : LCState) : LCState :=
  let s1 := initCounters s
  let p := setupMutationObserverIfPossible mutationSupported s1
  if p.2 then
    { p.1 with scheduledObserver := some Strategy.mutationBased
               intervalActive := true }
  else
    { p.1 with scheduledObserver := some Strategy.pollingBased
               intervalActive := true }

/-- `callWhenReadyToGo` up to (not including) the synchronous first call
of `_executeCallbackAfterPageIsLoaded`: reuse guard, set `_usedInstance`,
validate the configuration, set up the checker, register the callback.
An `Except.error` carries the instance state at the moment of the throw. -/
def callWhenReadyToGo (cfg : Config) (mutationSupported : Bool) (s : LCState) :
    Except (CallError × LCState) LCState :=
  if s.usedInstance then
    Except.error (CallError.reuseError, s)
  else
    let s1 := { s with usedInstance := true }
    match validateConfiguration cfg with
    | Except.error e => Except.error (e, s1)
    | Except.ok _ =>
        let s2 := setupLoadChecker mutationSupported s1
        Except.ok { s2 with callbackRegistered := true }

/-- The host environment of one watch: whether the mutation-observer
capability works, whether the page declares a global `callback` binding
(read by the post-callback logs of
`_executeCallbackAfterPageIsLoaded`), the element count `_countElements`
would return at each polling tick, and the element counts seen by the
mutation callback at its firings between consecutive ticks
(`mutationBatches t` lists the counts delivered in the window ending at
tick `t`). -/
structure Env where
  mutationSupported : Bool
  globalCallbackDefined : Bool
  nodeCountAtTick : Nat → Nat
  mutationBatches : Nat → List Nat

/-- The tick update under the polling strategy: the `setInterval` firing
of `_nodeCountChangeObserver` at tick `t`. -/
def pollingTick (env : Env) (t : Nat) (s : LCState) : LCState :=
  nodeCountChangeObserver s (env.nodeCountAtTick t)

/-- The tick update under the mutation strategy: the mutation-callback
deliveries of the window ending at tick `t`, then the `setInterval` firing
of `_domMutationsCountObserver`. -/
def mutationTick (env : Env) (t : Nat) (s : LCState) : LCState :=
  domMutationsCountObserver
    (List.foldl mutationObserverCallback s (env.mutationBatches t))

/-- The tick update for the `load-checker.js` copy of the polling
observer. -/
def pollingTickPublicJs (env : Env) (t : Nat) (s : LCState) : LCState :=
  nodeCountChangeObserverPublicJs s (env.nodeCountAtTick t)

/-- The whole of `callWhenReadyToGo`: the synchronous prologue followed by
the tick loop under the strategy that was handed to `setInterval`. -/
def watchForLoad (cfg : Config) (env : Env) (cbOk : Bool) (fuel : Nat)
    (s : LCState) : Except (CallError × LCState) RunResult :=
  match callWhenReadyToGo cfg env.mutationSupported s with
  | Except.error e => Except.error e
  | Except.ok s1 =>
      match s1.scheduledObserver with
      | some Strategy.mutationBased =>
          Except.ok (driveLoop cfg env.globalCallbackDefined cbOk
            (mutationTick env) fuel 0 s1)
      | _ =>
          Except.ok (driveLoop cfg env.globalCallbackDefined cbOk
            (pollingTick env) fuel 0 s1)

/-- The verdict of a whole watch (`none` when the entry point threw or the
fuel ran out). -/
def watchOutcome (r : Except (CallError × LCState) RunResult) :
    Option (Bool × Nat) :=
  match r with
  | Except.ok rr => rr.verdict
  | Except.error _ => none

/-- The events of the terminal check of a whole watch. -/
def watchEvents (r : Except (CallError × LCState) RunResult) : List Event :=
  match r with
  | Except.ok rr => rr.events
  | Except.error _ => []

/-- The final watcher state of a whole watch that got past the entry
point. -/
def watchFinalState (r : Except (CallError × LCState) RunResult) :
    Option LCState :=
  match r with
  | Except.ok rr => some rr.finalState
  | Except.error _ => none

/-- Number of change events among the synthetic per-tick change signals
`sig 1, …, sig t` (the element count realizing a synthetic change
sequence: one fresh element appears in each changing window). -/
def sigCount (sig : Nat → Bool) : Nat → Nat
  | 0 => 0
  | t + 1 => sigCount sig t + (if sig (t + 1) then 1 else 0)

/-- The polling-strategy environment realizing the synthetic change
sequence `sig` on a page where `gcb` says whether a global `callback` is
in scope. -/
def sigPollingEnv (gcb : Bool) (sig : Nat → Bool) : Env :=
  { mutationSupported := false
    globalCallbackDefined := gcb
    nodeCountAtTick := sigCount sig
    mutationBatches := fun _ => [] }

/-- The mutation-strategy environment realizing the synthetic change
sequence `sig`: in each changing window the mutation callback fires once
and sees the new element count. -/
def sigMutationEnv (gcb : Bool) (sig : Nat → Bool) : Env :=
  { mutationSupported := true
    globalCallbackDefined := gcb
    nodeCountAtTick := sigCount sig
    mutationBatches := fun t => if sig t then [sigCount sig t] else [] }

/-- The mutation-strategy environment of a README-like page (it declares
a global `callback`) whose DOM never changes: no mutation batch is ever
delivered, and the constant element count equals the baseline `0`. -/
def steadyMutationEnv : Env :=
  { mutationSupported := true
    globalCallbackDefined := true
    nodeCountAtTick := fun _ => 0
    mutationBatches := fun _ => [] }

/-- Polling environment of a DOM whose element count is `t` at tick `t`:
a change on every tick. -/
def changingPollingEnv (gcb : Bool) : Env :=
  { mutationSupported := false
    globalCallbackDefined := gcb
    nodeCountAtTick := fun t => t
    mutationBatches := fun _ => [] }

/-- Mutation environment of a DOM that mutates once in every inter-tick
window, each mutation changing the element count. -/
def changingMutationEnv (gcb : Bool) : Env :=
  { mutationSupported := true
    globalCallbackDefined := gcb
    nodeCountAtTick := fun t => t
    mutationBatches := fun t => [t] }

/-- One-step unfolding of the tick loop. -/
theorem driveLoop_unfold (cfg : Config) (gcb cbOk : Bool)
    (tick : Nat → LCState → LCState) (fuel t : Nat) (s : LCState) :
    driveLoop cfg gcb cbOk tick fuel t s =
      match executeCallbackStep cfg gcb cbOk s with
      | ExecOutcome.done ev s1 => RunResult.loaded t ev s1
      | ExecOutcome.raised ev s1 => RunResult.failed t ev s1
      | ExecOutcome.reschedule s1 =>
        match fuel with
        | 0 => RunResult.outOfFuel s1
        | fuel' + 1 =>
            driveLoop cfg gcb cbOk tick fuel' (t + 1) (tick (t + 1) s1) := by
  rw [driveLoop]

/-- Whenever `_executeCallbackAfterPageIsLoaded` returns normally from the
callback path, `_cleanupLoadChecker` has run in its `finally`. -/
theorem executeCallbackStep_done_released (cfg : Config) (gcb cbOk : Bool)
    (s : LCState) (ev : List Event) (s1 : LCState)
    (h : executeCallbackStep cfg gcb cbOk s = ExecOutcome.done ev s1) :
    s1.intervalActive = false := by
  unfold executeCallbackStep at h
  cases hc : isPageLoaded cfg s <;> rw [hc] at h
  case loadedNow s2 =>
    cases gcb
    · exact absurd h (by simp)
    · cases cbOk <;> simp only [Bool.false_eq_true, if_true, if_false,
        ite_true, ite_false, ExecOutcome.done.injEq] at h <;>
        exact h.2 ▸ rfl
  case notLoaded s2 => exact absurd h (by simp)
  case timeoutThrown s2 => exact absurd h (by simp)

/-- Whenever `_executeCallbackAfterPageIsLoaded` lets an exception
propagate — the timeout error, or the post-callback `ReferenceError` on a
page with no global `callback` — `_cleanupLoadChecker` has run first. -/
theorem executeCallbackStep_raised_released (cfg : Config) (gcb cbOk : Bool)
    (s : LCState) (ev : List Event) (s1 : LCState)
    (h : executeCallbackStep cfg gcb cbOk s = ExecOutcome.raised ev s1) :
    s1.intervalActive = false := by
  unfold executeCallbackStep at h
  cases hc : isPageLoaded cfg s <;> rw [hc] at h
  case loadedNow s2 =>
    cases gcb
    · simp only [Bool.false_eq_true, if_false, ite_false,
        ExecOutcome.raised.injEq] at h
      exact h.2 ▸ rfl
    · cases cbOk <;> exact absurd h (by simp)
  case notLoaded s2 => exact absurd h (by simp)
  case timeoutThrown s2 =>
    simp only [ExecOutcome.raised.injEq] at h
    exact h.2 ▸ rfl

/-- Claim C1 (code bug in the `load-checker.js` copy).  On a tick with a
detected change, the `part_000` copies of the observer reset
`_steadyStateIntervals` to `0` (both the polling and the mutation-count
variant), but the `src/public/javascripts/load-checker.js` copy of
`_nodeCountChangeObserver` leaves the counter untouched (here at `3`) and
only updates the recorded baseline, contradicting the claimed invariant
that every copy resets the counter on any detected change. -/
theorem c1_public_js_copy_keeps_steady_count_on_change :
    (nodeCountChangeObserver
        { initialState with steadyStateIntervals := 3
                            lastKnownNodeCountForNodeCountCheck := 7 }
        8).steadyStateIntervals = 0 ∧
    (domMutationsCountObserver
        { initialState with steadyStateIntervals := 3
                            mutationsCount := 2 }).steadyStateIntervals = 0 ∧
    (nodeCountChangeObserverPublicJs
        { initialState with steadyStateIntervals := 3
                            lastKnownNodeCountForNodeCountCheck := 7 }
        8).steadyStateIntervals = 3 := by
  refine ⟨rfl, rfl, rfl⟩

/-- Claim C6: with `_READY_AFTER_N_STEADY_STATE_INTERVALS ≥
_EXIT_REGARDLESS_AFTER_MAX_INTERVALS`, `callWhenReadyToGo` throws the
configuration error synchronously: the watch never reaches a run result,
and the state at the throw has no interval scheduled
(`intervalActive = false`, `scheduledObserver = none`). -/
theorem c6_configuration_error_before_any_tick (cfg : Config) (env : Env)
    (cbOk : Bool) (fuel : Nat)
    (h : cfg.exitRegardlessAfterMaxIntervals ≤ cfg.readyAfterNSteadyStateIntervals) :
    watchForLoad cfg env cbOk fuel initialState =
      Except.error (CallError.configurationError,
        { initialState with usedInstance := true }) ∧
    ({ initialState with usedInstance := true } : LCState).intervalActive = false ∧
    ({ initialState with usedInstance := true } : LCState).scheduledObserver = none := by
  refine ⟨?_, rfl, rfl⟩
  unfold watchForLoad callWhenReadyToGo validateConfiguration
  rw [if_pos (ge_iff_le.mpr h)]
  rfl

/-- Witness for C6 at the concrete configuration `(500, 20, 20)`. -/
theorem c6_configuration_error_before_any_tick_witness :
    (20 : Nat) ≤ 20 ∧
    (watchForLoad { checkIntervalMs := 500
                    readyAfterNSteadyStateIntervals := 20
                    exitRegardlessAfterMaxIntervals := 20 }
        steadyMutationEnv true 30 initialState =
      Except.error (CallError.configurationError,
        { initialState with usedInstance := true }) ∧
    ({ initialState with usedInstance := true } : LCState).intervalActive = false ∧
    ({ initialState with usedInstance := true } : LCState).scheduledObserver = none) :=
  ⟨le_refl 20,
    c6_configuration_error_before_any_tick _ steadyMutationEnv true 30 (le_refl 20)⟩

/-- Claim C7: a second call to `callWhenReadyToGo` on an already-used
instance fails with the reuse error and returns the watcher state exactly
as it was (no field altered, no setup performed); since the entry point
throws, no run happens and the supplied callback is never invoked. -/
theorem c7_reuse_error_leaves_state_untouched (cfg : Config) (env : Env)
    (cbOk : Bool) (fuel : Nat) (s : LCState) (h : s.usedInstance = true) :
    watchForLoad cfg env cbOk fuel s = Except.error (CallError.reuseError, s) := by
  unfold watchForLoad callWhenReadyToGo
  rw [if_pos h]

/-- Witness for C7: an instance already used once. -/
theorem c7_reuse_error_leaves_state_untouched_witness :
    ({ initialState with usedInstance := true } : LCState).usedInstance = true ∧
    watchForLoad defaultConfig steadyMutationEnv true 30
        { initialState with usedInstance := true } =
      Except.error (CallError.reuseError, { initialState with usedInstance := true }) :=
  ⟨rfl, c7_reuse_error_leaves_state_untouched defaultConfig steadyMutationEnv true 30
      { initialState with usedInstance := true } rfl⟩

/-- Claim C9: when setting up the mutation observer fails (capability
unavailable or `observe` throws — both return `false` from the local
catch in `_setupMutationObserverIfPossible`), `callWhenReadyToGo` does
not fail: the polling observer `_nodeCountChangeObserver` is handed to
`setInterval` and the watch proceeds with it. -/
theorem c9_mutation_setup_failure_demotes_to_polling (cfg : Config) (env : Env)
    (cbOk : Bool) (fuel : Nat)
    (hcfg : cfg.readyAfterNSteadyStateIntervals < cfg.exitRegardlessAfterMaxIntervals)
    (henv : env.mutationSupported = false) :
    callWhenReadyToGo cfg env.mutationSupported initialState =
      Except.ok { initialState with
        usedInstance := true
        scheduledObserver := some Strategy.pollingBased
        intervalActive := true
        callbackRegistered := true } ∧
    watchForLoad cfg env cbOk fuel initialState =
      Except.ok (driveLoop cfg env.globalCallbackDefined cbOk
        (pollingTick env) fuel 0
        { initialState with
          usedInstance := true
          scheduledObserver := some Strategy.pollingBased
          intervalActive := true
          callbackRegistered := true }) := by
  have hcall : callWhenReadyToGo cfg env.mutationSupported initialState =
      Except.ok { initialState with
        usedInstance := true
        scheduledObserver := some Strategy.pollingBased
        intervalActive := true
        callbackRegistered := true } := by
    unfold callWhenReadyToGo validateConfiguration
    rw [if_neg (by simp [initialState]), if_neg (by omega)]
    rw [henv]
    rfl
  refine ⟨hcall, ?_⟩
  unfold watchForLoad
  rw [hcall]

/-- Witness for C9 at the source configuration with the capability
absent. -/
theorem c9_mutation_setup_failure_demotes_to_polling_witness :
    defaultConfig.readyAfterNSteadyStateIntervals <
      defaultConfig.exitRegardlessAfterMaxIntervals ∧
    (changingPollingEnv true).mutationSupported = false ∧
    callWhenReadyToGo defaultConfig (changingPollingEnv true).mutationSupported
        initialState =
      Except.ok { initialState with
        usedInstance := true
        scheduledObserver := some Strategy.pollingBased
        intervalActive := true
        callbackRegistered := true } :=
  ⟨by decide, rfl,
    (c9_mutation_setup_failure_demotes_to_polling defaultConfig
      (changingPollingEnv true) true 30 (by decide) rfl).1⟩

/-- Claim C10: on an invalid configuration the first `callWhenReadyToGo`
sets `_usedInstance` to `true` before the configuration error is thrown
(the error state carries the flag), so a second call on the same instance
fails with the reuse error, not the configuration error. -/
theorem c10_config_error_sets_used_flag_first (cfg : Config) (ms1 ms2 : Bool)
    (h : cfg.exitRegardlessAfterMaxIntervals ≤ cfg.readyAfterNSteadyStateIntervals) :
    callWhenReadyToGo cfg ms1 initialState =
      Except.error (CallError.configurationError,
        { initialState with usedInstance := true }) ∧
    ({ initialState with usedInstance := true } : LCState).usedInstance = true ∧
    callWhenReadyToGo cfg ms2 { initialState with usedInstance := true } =
      Except.error (CallError.reuseError,
        { initialState with usedInstance := true }) := by
  refine ⟨?_, rfl, ?_⟩
  · unfold callWhenReadyToGo validateConfiguration
    rw [if_pos (ge_iff_le.mpr h)]
    rfl
  · unfold callWhenReadyToGo
    rw [if_pos rfl]

/-- Witness for C10 at the concrete invalid configuration `(500, 20, 20)`. -/
theorem c10_config_error_sets_used_flag_first_witness :
    (20 : Nat) ≤ 20 ∧
    (callWhenReadyToGo { checkIntervalMs := 500
                         readyAfterNSteadyStateIntervals := 20
                         exitRegardlessAfterMaxIntervals := 20 } true initialState =
      Except.error (CallError.configurationError,
        { initialState with usedInstance := true }) ∧
    ({ initialState with usedInstance := true } : LCState).usedInstance = true ∧
    callWhenReadyToGo { checkIntervalMs := 500
                        readyAfterNSteadyStateIntervals := 20
                        exitRegardlessAfterMaxIntervals := 20 } false
        { initialState with usedInstance := true } =
      Except.error (CallError.reuseError,
        { initialState with usedInstance := true })) :=
  ⟨le_refl 20, c10_config_error_sets_used_flag_first _ true false (le_refl 20)⟩

/-- Claim C4 (code bug).  The recovery the claim describes only happens
on pages that declare a global `callback`: there, a throwing user
callback is caught, logged and recovered, the `finally` releases the tick
handle, and the check returns normally (first conjunct).  On any page
without that global — the failing input — the inner catch's own log
(part_000 line 278) throws a `ReferenceError` when it reads the
undeclared identifier `callback`, so after the `finally` and the outer
catch both run `_cleanupLoadChecker`, the exception escapes the driver
(`ExecOutcome.raised`, second conjunct), contradicting the function's own
doc comment ("If the user callback throws an exception it will be caught
and a message sent to the console").  The tick handle is released in both
cases. -/
theorem c4_callback_error_escapes_without_global_callback (cfg : Config)
    (s : LCState)
    (h : cfg.readyAfterNSteadyStateIntervals ≤ s.steadyStateIntervals) :
    executeCallbackStep cfg true false s =
      ExecOutcome.done
        [Event.callbackInvoked, Event.callbackErrorLogged, Event.cleanup]
        { s with intervalActive := false } ∧
    executeCallbackStep cfg false false s =
      ExecOutcome.raised
        [Event.callbackInvoked, Event.cleanup, Event.cleanup,
         Event.errorRaised]
        { s with intervalActive := false } := by
  constructor <;>
    · unfold executeCallbackStep isPageLoaded
      rw [if_pos (ge_iff_le.mpr h)]
      rfl

/-- Witness for C4's theorem: the loaded state at the source threshold
`5`. -/
theorem c4_callback_error_escapes_without_global_callback_witness :
    defaultConfig.readyAfterNSteadyStateIntervals ≤ (5 : Nat) ∧
    (executeCallbackStep defaultConfig true false
        { initialState with steadyStateIntervals := 5 } =
      ExecOutcome.done
        [Event.callbackInvoked, Event.callbackErrorLogged, Event.cleanup]
        { initialState with
          steadyStateIntervals := 5
          intervalActive := false } ∧
    executeCallbackStep defaultConfig false false
        { initialState with steadyStateIntervals := 5 } =
      ExecOutcome.raised
        [Event.callbackInvoked, Event.cleanup, Event.cleanup,
         Event.errorRaised]
        { initialState with
          steadyStateIntervals := 5
          intervalActive := false }) :=
  ⟨by decide,
    c4_callback_error_escapes_without_global_callback defaultConfig
      { initialState with steadyStateIntervals := 5 } (by decide)⟩

/-- Claim C5 (amended part): on every terminal exit of the tick loop —
normal completion, callback error (logged or escaping as the
`ReferenceError`), or timeout, under any strategy, on any page and from
any state — the periodic tick handle has been released when the loop
ends. -/
theorem c5_tick_handle_released_on_every_exit (cfg : Config)
    (gcb cbOk : Bool) (tick : Nat → LCState → LCState) (fuel t : Nat)
    (s : LCState) (v : Bool × Nat)
    (h : (driveLoop cfg gcb cbOk tick fuel t s).verdict = some v) :
    (driveLoop cfg gcb cbOk tick fuel t s).finalState.intervalActive = false := by
  induction fuel generalizing t s with
  | zero =>
    rw [driveLoop_unfold] at h ⊢
    cases hc : executeCallbackStep cfg gcb cbOk s <;> simp only [hc] at h ⊢
    case done ev s1 =>
      exact executeCallbackStep_done_released cfg gcb cbOk s ev s1 hc
    case reschedule s1 => exact absurd h (by simp [RunResult.verdict])
    case raised ev s1 =>
      exact executeCallbackStep_raised_released cfg gcb cbOk s ev s1 hc
  | succ fuel' ih =>
    rw [driveLoop_unfold] at h ⊢
    cases hc : executeCallbackStep cfg gcb cbOk s <;> simp only [hc] at h ⊢
    case done ev s1 =>
      exact executeCallbackStep_done_released cfg gcb cbOk s ev s1 hc
    case reschedule s1 => exact ih (t + 1) (tick (t + 1) s1) h
    case raised ev s1 =>
      exact executeCallbackStep_raised_released cfg gcb cbOk s ev s1 hc

/-- Witness for C5's theorem: the successful default-configuration
mutation-strategy run. -/
theorem c5_tick_handle_released_on_every_exit_witness :
    (driveLoop defaultConfig true true (mutationTick steadyMutationEnv) 30 0
        (setupLoadChecker true initialState)).verdict = some (true, 5) ∧
    (driveLoop defaultConfig true true (mutationTick steadyMutationEnv) 30 0
        (setupLoadChecker true initialState)).finalState.intervalActive = false :=
  ⟨rfl,
    c5_tick_handle_released_on_every_exit defaultConfig true true
      (mutationTick steadyMutationEnv) 30 0 (setupLoadChecker true initialState)
      (true, 5) rfl⟩

/-- Counterexample for Claim C5 as stated: a successful watch under the
mutation strategy ends with the periodic tick handle released but the
`MutationObserver` subscription acquired at setup still connected — the
source never calls `disconnect`, so not every acquired resource is
released on exit. -/
theorem c5_subscription_still_connected_counterexample :
    watchOutcome (watchForLoad defaultConfig steadyMutationEnv true 30
        initialState) = some (true, 5) ∧
    (watchFinalState (watchForLoad defaultConfig steadyMutationEnv true 30
        initialState)).map
      (fun s => (s.intervalActive, s.observerConnected)) =
      some (false, true) := by
  refine ⟨rfl, rfl⟩

/-- Tick loop of the mutation strategy when no mutation batch ever
arrives: with `d` steady intervals still missing, the check `d` ticks
later finds the page loaded and invokes the callback once, with the tick
handle released directly after the invocation; the run then returns
normally when the page declares a global `callback`, and otherwise
raises the post-callback `ReferenceError` after a second cleanup. -/
theorem driveLoop_mutation_no_change (cfg : Config) (gcb : Bool) (env : Env)
    (hb : ∀ u, env.mutationBatches u = []) :
    ∀ (d t fuel : Nat) (s : LCState),
      d ≤ fuel →
      s.steadyStateIntervals + d = cfg.readyAfterNSteadyStateIntervals →
      s.intervalCount + d ≤ cfg.exitRegardlessAfterMaxIntervals →
      s.mutationsCount = 0 →
      (driveLoop cfg gcb true (mutationTick env) fuel t s).verdict =
        some (gcb, t + d) ∧
      (driveLoop cfg gcb true (mutationTick env) fuel t s).events =
        (if gcb then [Event.callbackInvoked, Event.cleanup]
         else [Event.callbackInvoked, Event.cleanup, Event.cleanup,
               Event.errorRaised]) ∧
      (driveLoop cfg gcb true (mutationTick env) fuel t
        s).finalState.intervalActive = false := by
  intro d
  induction d with
  | zero =>
    intro t fuel s hfuel hsteady hic hmc
    have hready : s.steadyStateIntervals ≥
        cfg.readyAfterNSteadyStateIntervals := by omega
    cases gcb with
    | true =>
      have hstep : executeCallbackStep cfg true true s =
          ExecOutcome.done [Event.callbackInvoked, Event.cleanup]
            (cleanupLoadChecker s) := by
        unfold executeCallbackStep isPageLoaded
        rw [if_pos hready]
        rfl
      rw [driveLoop_unfold]
      simp only [hstep]
      exact ⟨by simp [RunResult.verdict], rfl, rfl⟩
    | false =>
      have hstep : executeCallbackStep cfg false true s =
          ExecOutcome.raised
            [Event.callbackInvoked, Event.cleanup, Event.cleanup,
             Event.errorRaised]
            (cleanupLoadChecker s) := by
        unfold executeCallbackStep isPageLoaded
        rw [if_pos hready]
        rfl
      rw [driveLoop_unfold]
      simp only [hstep]
      exact ⟨by simp [RunResult.verdict], rfl, rfl⟩
  | succ d ih =>
    intro t fuel s hfuel hsteady hic hmc
    have hstep : executeCallbackStep cfg gcb true s =
        ExecOutcome.reschedule { s with intervalCount := s.intervalCount + 1 } := by
      unfold executeCallbackStep isPageLoaded
      rw [if_neg (by omega : ¬ s.steadyStateIntervals ≥
        cfg.readyAfterNSteadyStateIntervals)]
      rw [if_neg (show ¬ s.intervalCount + 1 >
        cfg.exitRegardlessAfterMaxIntervals from by omega)]
    obtain ⟨fuel', rfl⟩ : ∃ f, fuel = f + 1 := ⟨fuel - 1, by omega⟩
    rw [driveLoop_unfold]
    simp only [hstep]
    have htick : mutationTick env (t + 1)
        { s with intervalCount := s.intervalCount + 1 } =
        { s with intervalCount := s.intervalCount + 1,
                 steadyStateIntervals := s.steadyStateIntervals + 1 } := by
      unfold mutationTick domMutationsCountObserver
      rw [hb]
      simp only [List.foldl_nil]
      rw [if_neg (show ¬ s.mutationsCount > 0 from by omega)]
    rw [htick]
    have hrec := ih (t + 1) fuel'
      { s with intervalCount := s.intervalCount + 1,
               steadyStateIntervals := s.steadyStateIntervals + 1 }
      (by omega)
      (show s.steadyStateIntervals + 1 + d =
        cfg.readyAfterNSteadyStateIntervals from by omega)
      (show s.intervalCount + 1 + d ≤
        cfg.exitRegardlessAfterMaxIntervals from by omega)
      (show s.mutationsCount = 0 from hmc)
    rw [show t + (d + 1) = t + 1 + d from by omega]
    exact hrec

/-- Claim C2 (amended): in every run under the mutation-based strategy in
which the DOM never changes after watch start (no mutation batch is ever
delivered), the check at tick `_READY_AFTER_N_STEADY_STATE_INTERVALS`
exactly finds the page loaded, the user callback is invoked exactly once
(the terminal events carry exactly one `callbackInvoked`), and the tick
handle is released immediately after the invocation (`cleanup` directly
follows it).  The run then returns normally precisely on pages that
declare a global `callback` identifier; on other pages the post-callback
log's `ReferenceError` escapes after the cleanup (hence the verdict flag
equals `globalCallbackDefined`). -/
theorem c2_mutation_steady_run_loads_after_ready_ticks (cfg : Config)
    (env : Env) (fuel : Nat)
    (hcfg : cfg.readyAfterNSteadyStateIntervals <
      cfg.exitRegardlessAfterMaxIntervals)
    (henv : env.mutationSupported = true)
    (hb : ∀ u, env.mutationBatches u = [])
    (hfuel : cfg.readyAfterNSteadyStateIntervals ≤ fuel) :
    watchOutcome (watchForLoad cfg env true fuel initialState) =
      some (env.globalCallbackDefined, cfg.readyAfterNSteadyStateIntervals) ∧
    watchEvents (watchForLoad cfg env true fuel initialState) =
      (if env.globalCallbackDefined then
        [Event.callbackInvoked, Event.cleanup]
       else
        [Event.callbackInvoked, Event.cleanup, Event.cleanup,
         Event.errorRaised]) ∧
    (watchFinalState (watchForLoad cfg env true fuel initialState)).map
      LCState.intervalActive = some false := by
  have hcall : callWhenReadyToGo cfg env.mutationSupported initialState =
      Except.ok { initialState with
        usedInstance := true
        observerConnected := true
        scheduledObserver := some Strategy.mutationBased
        intervalActive := true
        callbackRegistered := true } := by
    unfold callWhenReadyToGo validateConfiguration
    rw [if_neg (by simp [initialState]), if_neg (by omega)]
    rw [henv]
    rfl
  have hrun := driveLoop_mutation_no_change cfg env.globalCallbackDefined env hb
    cfg.readyAfterNSteadyStateIntervals 0 fuel
    { initialState with
      usedInstance := true
      observerConnected := true
      scheduledObserver := some Strategy.mutationBased
      intervalActive := true
      callbackRegistered := true }
    hfuel (by simp [initialState]) (by simp [initialState]; omega) rfl
  unfold watchForLoad
  rw [hcall]
  simp only [watchOutcome, watchEvents, watchFinalState, Option.map]
  rw [show (0 : Nat) + cfg.readyAfterNSteadyStateIntervals =
    cfg.readyAfterNSteadyStateIntervals from by omega] at hrun
  exact ⟨hrun.1, hrun.2.1, by rw [hrun.2.2]⟩

/-- Witness for C2's amended theorem at the source configuration, on a
README-like page (global `callback` in scope). -/
theorem c2_mutation_steady_run_loads_after_ready_ticks_witness :
    defaultConfig.readyAfterNSteadyStateIntervals <
      defaultConfig.exitRegardlessAfterMaxIntervals ∧
    steadyMutationEnv.mutationSupported = true ∧
    watchOutcome (watchForLoad defaultConfig steadyMutationEnv true 30
      initialState) = some (true, 5) :=
  ⟨by decide, rfl,
    (c2_mutation_steady_run_loads_after_ready_ticks defaultConfig
      steadyMutationEnv 30 (by decide) rfl (fun _ => rfl) (by decide)).1⟩

/-- Counterexample for Claim C2 as stated: under the polling-based
strategy, a run whose DOM never changes after watch start (constant
element count `1` at every tick, on a page with the global `callback` in
scope) invokes the callback at tick `6`, not at tick
`steadyIntervalsRequired = 5`: the observer's baseline starts at `0`, so
the first tick is counted as a change. -/
theorem c2_polling_steady_run_takes_an_extra_tick_counterexample :
    defaultConfig.readyAfterNSteadyStateIntervals = 5 ∧
    watchOutcome (watchForLoad defaultConfig
      { mutationSupported := false
        globalCallbackDefined := true
        nodeCountAtTick := fun _ => 1
        mutationBatches := fun _ => [] } true 30 initialState) =
      some (true, 6) := by
  refine ⟨rfl, rfl⟩

/-- Tick loop under any strategy whose observer detects a change on every
tick of the run (`P` is the invariant carried along the run; the tick
update must zero the steady counter, leave `_intervalCount` alone and
preserve `P`): with `d` further checks admitted by the interval budget,
the timeout error is thrown at the check `d` ticks later, after
`_cleanupLoadChecker` has run. -/
theorem driveLoop_always_changing (cfg : Config) (gcb cbOk : Bool)
    (tick : Nat → LCState → LCState) (P : Nat → LCState → Prop)
    (hP : ∀ u s, P u s →
      (tick (u + 1) { s with intervalCount := s.intervalCount + 1
        }).steadyStateIntervals = 0 ∧
      (tick (u + 1) { s with intervalCount := s.intervalCount + 1
        }).intervalCount = s.intervalCount + 1 ∧
      P (u + 1) (tick (u + 1) { s with intervalCount := s.intervalCount + 1 }))
    (h0 : 0 < cfg.readyAfterNSteadyStateIntervals) :
    ∀ (d t fuel : Nat) (s : LCState),
      d ≤ fuel →
      P t s →
      s.steadyStateIntervals = 0 →
      s.intervalCount + d = cfg.exitRegardlessAfterMaxIntervals →
      (driveLoop cfg gcb cbOk tick fuel t s).verdict = some (false, t + d) ∧
      (driveLoop cfg gcb cbOk tick fuel t s).events =
        [Event.cleanup, Event.errorRaised] ∧
      (driveLoop cfg gcb cbOk tick fuel t s).finalState.intervalActive = false := by
  intro d
  induction d with
  | zero =>
    intro t fuel s hfuel hPs hsteady hic
    have hstep : executeCallbackStep cfg gcb cbOk s =
        ExecOutcome.raised [Event.cleanup, Event.errorRaised]
          (cleanupLoadChecker { s with intervalCount := s.intervalCount + 1 }) := by
      unfold executeCallbackStep isPageLoaded
      rw [if_neg (by omega : ¬ s.steadyStateIntervals ≥
        cfg.readyAfterNSteadyStateIntervals)]
      rw [if_pos (show s.intervalCount + 1 >
        cfg.exitRegardlessAfterMaxIntervals from by omega)]
    rw [driveLoop_unfold]
    simp only [hstep]
    exact ⟨by simp [RunResult.verdict], rfl, rfl⟩
  | succ d ih =>
    intro t fuel s hfuel hPs hsteady hic
    have hstep : executeCallbackStep cfg gcb cbOk s =
        ExecOutcome.reschedule { s with intervalCount := s.intervalCount + 1 } := by
      unfold executeCallbackStep isPageLoaded
      rw [if_neg (by omega : ¬ s.steadyStateIntervals ≥
        cfg.readyAfterNSteadyStateIntervals)]
      rw [if_neg (show ¬ s.intervalCount + 1 >
        cfg.exitRegardlessAfterMaxIntervals from by omega)]
    obtain ⟨fuel', rfl⟩ : ∃ f, fuel = f + 1 := ⟨fuel - 1, by omega⟩
    rw [driveLoop_unfold]
    simp only [hstep]
    obtain ⟨hz, hi, hp⟩ := hP t s hPs
    have hrec := ih (t + 1) fuel'
      (tick (t + 1) { s with intervalCount := s.intervalCount + 1 })
      (by omega) hp hz (by omega)
    rw [show t + (d + 1) = t + 1 + d from by omega]
    exact hrec

/-- Claim C3: when the DOM changes on every tick, the watch throws the
timeout error at the check of tick `_EXIT_REGARDLESS_AFTER_MAX_INTERVALS`
— i.e. on the `maxIntervals + 1`-th check at which the steady-state
threshold was not yet reached (checks run at ticks `0, 1, …,
maxIntervals`, and `_intervalCount` is incremented exactly on those
checks) — and `_cleanupLoadChecker` releases the tick handle before the
error surfaces (the `cleanup` event precedes `errorRaised`).  Stated for
both fallback paths: the polling strategy observing a fresh element count
each tick, and the mutation strategy receiving a count-changing mutation
batch in every window. -/
theorem c3_changing_every_tick_times_out (cfg : Config) (gcb cbOk : Bool)
    (fuel : Nat)
    (h0 : 0 < cfg.readyAfterNSteadyStateIntervals)
    (hcfg : cfg.readyAfterNSteadyStateIntervals <
      cfg.exitRegardlessAfterMaxIntervals)
    (hfuel : cfg.exitRegardlessAfterMaxIntervals ≤ fuel) :
    (watchOutcome (watchForLoad cfg (changingPollingEnv gcb) cbOk fuel initialState) =
       some (false, cfg.exitRegardlessAfterMaxIntervals) ∧
     watchEvents (watchForLoad cfg (changingPollingEnv gcb) cbOk fuel initialState) =
       [Event.cleanup, Event.errorRaised] ∧
     (watchFinalState (watchForLoad cfg (changingPollingEnv gcb) cbOk fuel
       initialState)).map LCState.intervalActive = some false) ∧
    (watchOutcome (watchForLoad cfg (changingMutationEnv gcb) cbOk fuel initialState) =
       some (false, cfg.exitRegardlessAfterMaxIntervals) ∧
     watchEvents (watchForLoad cfg (changingMutationEnv gcb) cbOk fuel initialState) =
       [Event.cleanup, Event.errorRaised] ∧
     (watchFinalState (watchForLoad cfg (changingMutationEnv gcb) cbOk fuel
       initialState)).map LCState.intervalActive = some false) := by
  constructor
  · have hcall : callWhenReadyToGo cfg (changingPollingEnv gcb).mutationSupported
        initialState =
        Except.ok { initialState with
          usedInstance := true
          scheduledObserver := some Strategy.pollingBased
          intervalActive := true
          callbackRegistered := true } := by
      unfold callWhenReadyToGo validateConfiguration
      rw [if_neg (by simp [initialState]), if_neg (by omega)]
      rfl
    have hrun := driveLoop_always_changing cfg
      (changingPollingEnv gcb).globalCallbackDefined cbOk
      (pollingTick (changingPollingEnv gcb))
      (fun u s => s.lastKnownNodeCountForNodeCountCheck = u)
      (by
        intro u s hPs
        have hchange : pollingTick (changingPollingEnv gcb) (u + 1)
            { s with intervalCount := s.intervalCount + 1 } =
            { s with intervalCount := s.intervalCount + 1
                     steadyStateIntervals := 0
                     lastKnownNodeCountForNodeCountCheck := u + 1 } := by
          unfold pollingTick nodeCountChangeObserver changingPollingEnv
          rw [if_pos (show ({ s with intervalCount := s.intervalCount + 1
            } : LCState).lastKnownNodeCountForNodeCountCheck ≠ u + 1 from by
              simp only []
              omega)]
        rw [hchange]
        exact ⟨rfl, rfl, rfl⟩)
      h0
      cfg.exitRegardlessAfterMaxIntervals 0 fuel
      { initialState with
        usedInstance := true
        scheduledObserver := some Strategy.pollingBased
        intervalActive := true
        callbackRegistered := true }
      hfuel rfl rfl (by simp [initialState])
    unfold watchForLoad
    rw [hcall]
    simp only [watchOutcome, watchEvents, watchFinalState, Option.map]
    rw [show (0 : Nat) + cfg.exitRegardlessAfterMaxIntervals =
      cfg.exitRegardlessAfterMaxIntervals from by omega] at hrun
    exact ⟨hrun.1, hrun.2.1, by rw [hrun.2.2]⟩
  · have hcall : callWhenReadyToGo cfg (changingMutationEnv gcb).mutationSupported
        initialState =
        Except.ok { initialState with
          usedInstance := true
          observerConnected := true
          scheduledObserver := some Strategy.mutationBased
          intervalActive := true
          callbackRegistered := true } := by
      unfold callWhenReadyToGo validateConfiguration
      rw [if_neg (by simp [initialState]), if_neg (by omega)]
      rfl
    have hrun := driveLoop_always_changing cfg
      (changingMutationEnv gcb).globalCallbackDefined cbOk
      (mutationTick (changingMutationEnv gcb))
      (fun u s => s.lastKnownNodeCountForMutationEvent = u ∧
        s.mutationsCount = 0)
      (by
        intro u s hPs
        have hdeliver : List.foldl mutationObserverCallback
            { s with intervalCount := s.intervalCount + 1 }
            ((changingMutationEnv gcb).mutationBatches (u + 1)) =
            { s with intervalCount := s.intervalCount + 1
                     lastKnownNodeCountForMutationEvent := u + 1
                     mutationsCount := s.mutationsCount + 1 } := by
          show List.foldl mutationObserverCallback _ [u + 1] = _
          simp only [List.foldl_cons, List.foldl_nil]
          unfold mutationObserverCallback
          rw [if_pos (show ({ s with intervalCount := s.intervalCount + 1
            } : LCState).lastKnownNodeCountForMutationEvent ≠ u + 1 from by
              simp only []
              omega)]
        have hchange : mutationTick (changingMutationEnv gcb) (u + 1)
            { s with intervalCount := s.intervalCount + 1 } =
            { s with intervalCount := s.intervalCount + 1
                     lastKnownNodeCountForMutationEvent := u + 1
                     mutationsCount := 0
                     steadyStateIntervals := 0 } := by
          unfold mutationTick
          rw [hdeliver]
          unfold domMutationsCountObserver
          rw [if_pos (show s.mutationsCount + 1 > 0 from by omega)]
        rw [hchange]
        exact ⟨rfl, rfl, rfl, rfl⟩)
      h0
      cfg.exitRegardlessAfterMaxIntervals 0 fuel
      { initialState with
        usedInstance := true
        observerConnected := true
        scheduledObserver := some Strategy.mutationBased
        intervalActive := true
        callbackRegistered := true }
      hfuel ⟨rfl, rfl⟩ rfl (by simp [initialState])
    unfold watchForLoad
    rw [hcall]
    simp only [watchOutcome, watchEvents, watchFinalState, Option.map]
    rw [show (0 : Nat) + cfg.exitRegardlessAfterMaxIntervals =
      cfg.exitRegardlessAfterMaxIntervals from by omega] at hrun
    exact ⟨hrun.1, hrun.2.1, by rw [hrun.2.2]⟩

/-- Witness for C3 at the source configuration: timeout at the 21st
not-yet-steady check (tick 20), under both strategies. -/
theorem c3_changing_every_tick_times_out_witness :
    (0 : Nat) < 5 ∧ (5 : Nat) < 20 ∧
    (watchOutcome (watchForLoad defaultConfig (changingPollingEnv true) true 30
        initialState) = some (false, 20) ∧
     watchOutcome (watchForLoad defaultConfig (changingMutationEnv true) true 30
        initialState) = some (false, 20)) :=
  ⟨by decide, by decide,
    ⟨(c3_changing_every_tick_times_out defaultConfig true true 30 (by decide)
        (by decide) (by decide)).1.1,
     (c3_changing_every_tick_times_out defaultConfig true true 30 (by decide)
        (by decide) (by decide)).2.1⟩⟩

/-- When the steady-state threshold is reached, the check path performs
the callback path: it returns normally when the global `callback` is in
scope, and raises the post-callback `ReferenceError` otherwise. -/
theorem executeCallbackStep_of_ready (cfg : Config) (gcb cbOk : Bool)
    (s : LCState) (h : cfg.readyAfterNSteadyStateIntervals ≤ s.steadyStateIntervals) :
    executeCallbackStep cfg gcb cbOk s =
      (if gcb then
        ExecOutcome.done
          (if cbOk then [Event.callbackInvoked, Event.cleanup]
           else [Event.callbackInvoked, Event.callbackErrorLogged,
                 Event.cleanup])
          (cleanupLoadChecker s)
       else
        ExecOutcome.raised
          [Event.callbackInvoked, Event.cleanup, Event.cleanup,
           Event.errorRaised]
          (cleanupLoadChecker s)) := by
  unfold executeCallbackStep isPageLoaded
  rw [if_pos (ge_iff_le.mpr h)]
  cases gcb <;> cases cbOk <;> rfl

/-- When the threshold is missed and the interval budget is exhausted,
the check path raises after cleanup. -/
theorem executeCallbackStep_of_timeout (cfg : Config) (gcb cbOk : Bool)
    (s : LCState)
    (h1 : s.steadyStateIntervals < cfg.readyAfterNSteadyStateIntervals)
    (h2 : cfg.exitRegardlessAfterMaxIntervals < s.intervalCount + 1) :
    executeCallbackStep cfg gcb cbOk s =
      ExecOutcome.raised [Event.cleanup, Event.errorRaised]
        (cleanupLoadChecker { s with intervalCount := s.intervalCount + 1 }) := by
  unfold executeCallbackStep isPageLoaded
  rw [if_neg (by omega : ¬ s.steadyStateIntervals ≥
    cfg.readyAfterNSteadyStateIntervals)]
  rw [if_pos (show s.intervalCount + 1 >
    cfg.exitRegardlessAfterMaxIntervals from h2)]

/-- When the threshold is missed but the interval budget is not, the
check path reschedules with the interval counter bumped. -/
theorem executeCallbackStep_of_reschedule (cfg : Config) (gcb cbOk : Bool)
    (s : LCState)
    (h1 : s.steadyStateIntervals < cfg.readyAfterNSteadyStateIntervals)
    (h2 : s.intervalCount + 1 ≤ cfg.exitRegardlessAfterMaxIntervals) :
    executeCallbackStep cfg gcb cbOk s =
      ExecOutcome.reschedule { s with intervalCount := s.intervalCount + 1 } := by
  unfold executeCallbackStep isPageLoaded
  rw [if_neg (by omega : ¬ s.steadyStateIntervals ≥
    cfg.readyAfterNSteadyStateIntervals)]
  rw [if_neg (show ¬ s.intervalCount + 1 >
    cfg.exitRegardlessAfterMaxIntervals from by omega)]

/-- A check at a loaded state ends the run at the current tick; the run
counts as a normal completion exactly when the global `callback` is in
scope. -/
theorem driveLoop_verdict_of_ready (cfg : Config) (gcb cbOk : Bool)
    (tick : Nat → LCState → LCState) (fuel t : Nat) (s : LCState)
    (h : cfg.readyAfterNSteadyStateIntervals ≤ s.steadyStateIntervals) :
    (driveLoop cfg gcb cbOk tick fuel t s).verdict = some (gcb, t) := by
  rw [driveLoop_unfold, executeCallbackStep_of_ready cfg gcb cbOk s h]
  cases gcb <;> rfl

/-- A check at an exhausted-budget state yields the timeout verdict at the
current tick. -/
theorem driveLoop_verdict_of_timeout (cfg : Config) (gcb cbOk : Bool)
    (tick : Nat → LCState → LCState) (fuel t : Nat) (s : LCState)
    (h1 : s.steadyStateIntervals < cfg.readyAfterNSteadyStateIntervals)
    (h2 : cfg.exitRegardlessAfterMaxIntervals < s.intervalCount + 1) :
    (driveLoop cfg gcb cbOk tick fuel t s).verdict = some (false, t) := by
  rw [driveLoop_unfold, executeCallbackStep_of_timeout cfg gcb cbOk s h1 h2]
  rfl

/-- A rescheduling check with no fuel left ends the model run without a
verdict. -/
theorem driveLoop_verdict_of_fuel_out (cfg : Config) (gcb cbOk : Bool)
    (tick : Nat → LCState → LCState) (t : Nat) (s : LCState)
    (h1 : s.steadyStateIntervals < cfg.readyAfterNSteadyStateIntervals)
    (h2 : s.intervalCount + 1 ≤ cfg.exitRegardlessAfterMaxIntervals) :
    (driveLoop cfg gcb cbOk tick 0 t s).verdict = none := by
  rw [driveLoop_unfold, executeCallbackStep_of_reschedule cfg gcb cbOk s h1 h2]
  rfl

/-- A rescheduling check hands over to the next tick. -/
theorem driveLoop_of_reschedule (cfg : Config) (gcb cbOk : Bool)
    (tick : Nat → LCState → LCState) (fuel t : Nat) (s : LCState)
    (h1 : s.steadyStateIntervals < cfg.readyAfterNSteadyStateIntervals)
    (h2 : s.intervalCount + 1 ≤ cfg.exitRegardlessAfterMaxIntervals) :
    driveLoop cfg gcb cbOk tick (fuel + 1) t s =
      driveLoop cfg gcb cbOk tick fuel (t + 1)
        (tick (t + 1) { s with intervalCount := s.intervalCount + 1 }) := by
  rw [driveLoop_unfold, executeCallbackStep_of_reschedule cfg gcb cbOk s h1 h2]

/-- Unfolding of the synthetic change counter. -/
theorem sigCount_succ (sig : Nat → Bool) (t : Nat) :
    sigCount sig (t + 1) = sigCount sig t + (if sig (t + 1) then 1 else 0) :=
  rfl

/-- The part_000 polling observer and the mutation-count observer, run
against realizations of the same synthetic per-tick change sequence
`sig`, keep equal steady/interval counters at every check and therefore
produce the same verdict from any pair of states related by the loop
invariant. -/
theorem driveLoop_sig_equiv (cfg : Config) (gcb cbOk : Bool) (sig : Nat → Bool) :
    ∀ (fuel t : Nat) (sp sm : LCState),
      sp.steadyStateIntervals = sm.steadyStateIntervals →
      sp.intervalCount = sm.intervalCount →
      sp.lastKnownNodeCountForNodeCountCheck = sigCount sig t →
      sm.lastKnownNodeCountForMutationEvent = sigCount sig t →
      sm.mutationsCount = 0 →
      (driveLoop cfg gcb cbOk (pollingTick (sigPollingEnv gcb sig)) fuel t sp).verdict =
      (driveLoop cfg gcb cbOk (mutationTick (sigMutationEnv gcb sig)) fuel t sm).verdict := by
  intro fuel
  induction fuel with
  | zero =>
    intro t sp sm hs hi hp hm hmc
    by_cases h1 : cfg.readyAfterNSteadyStateIntervals ≤ sm.steadyStateIntervals
    · rw [driveLoop_verdict_of_ready cfg gcb cbOk _ 0 t sp (by omega),
          driveLoop_verdict_of_ready cfg gcb cbOk _ 0 t sm h1]
    · by_cases h2 : cfg.exitRegardlessAfterMaxIntervals < sm.intervalCount + 1
      · rw [driveLoop_verdict_of_timeout cfg gcb cbOk _ 0 t sp (by omega) (by omega),
            driveLoop_verdict_of_timeout cfg gcb cbOk _ 0 t sm (by omega) h2]
      · rw [driveLoop_verdict_of_fuel_out cfg gcb cbOk _ t sp (by omega) (by omega),
            driveLoop_verdict_of_fuel_out cfg gcb cbOk _ t sm (by omega) (by omega)]
  | succ fuel' ih =>
    intro t sp sm hs hi hp hm hmc
    by_cases h1 : cfg.readyAfterNSteadyStateIntervals ≤ sm.steadyStateIntervals
    · rw [driveLoop_verdict_of_ready cfg gcb cbOk _ (fuel' + 1) t sp (by omega),
          driveLoop_verdict_of_ready cfg gcb cbOk _ (fuel' + 1) t sm h1]
    · by_cases h2 : cfg.exitRegardlessAfterMaxIntervals < sm.intervalCount + 1
      · rw [driveLoop_verdict_of_timeout cfg gcb cbOk _ (fuel' + 1) t sp
            (by omega) (by omega),
            driveLoop_verdict_of_timeout cfg gcb cbOk _ (fuel' + 1) t sm
            (by omega) h2]
      · rw [driveLoop_of_reschedule cfg gcb cbOk _ fuel' t sp (by omega) (by omega),
            driveLoop_of_reschedule cfg gcb cbOk _ fuel' t sm (by omega) (by omega)]
        by_cases hsig : sig (t + 1)
        · have hcount : sigCount sig (t + 1) = sigCount sig t + 1 := by
            rw [sigCount_succ, if_pos hsig]
          have hpn : pollingTick (sigPollingEnv gcb sig) (t + 1)
              { sp with intervalCount := sp.intervalCount + 1 } =
              { sp with intervalCount := sp.intervalCount + 1
                        steadyStateIntervals := 0
                        lastKnownNodeCountForNodeCountCheck :=
                          sigCount sig (t + 1) } := by
            unfold pollingTick nodeCountChangeObserver sigPollingEnv
            rw [if_pos (show sp.lastKnownNodeCountForNodeCountCheck ≠
              sigCount sig (t + 1) from by omega)]
          have hmn : mutationTick (sigMutationEnv gcb sig) (t + 1)
              { sm with intervalCount := sm.intervalCount + 1 } =
              { sm with intervalCount := sm.intervalCount + 1
                        lastKnownNodeCountForMutationEvent := sigCount sig (t + 1)
                        mutationsCount := 0
                        steadyStateIntervals := 0 } := by
            unfold mutationTick sigMutationEnv
            simp only []
            rw [if_pos hsig]
            simp only [List.foldl_cons, List.foldl_nil]
            unfold mutationObserverCallback
            rw [if_pos (show sm.lastKnownNodeCountForMutationEvent ≠
              sigCount sig (t + 1) from by omega)]
            unfold domMutationsCountObserver
            rw [if_pos (show sm.mutationsCount + 1 > 0 from by omega)]
          rw [hpn, hmn]
          exact ih (t + 1) _ _ rfl
            (show sp.intervalCount + 1 = sm.intervalCount + 1 from by omega)
            rfl rfl rfl
        · have hcount : sigCount sig (t + 1) = sigCount sig t := by
            rw [sigCount_succ, if_neg hsig]
            omega
          have hpn : pollingTick (sigPollingEnv gcb sig) (t + 1)
              { sp with intervalCount := sp.intervalCount + 1 } =
              { sp with intervalCount := sp.intervalCount + 1
                        steadyStateIntervals := sp.steadyStateIntervals + 1 } := by
            unfold pollingTick nodeCountChangeObserver sigPollingEnv
            rw [if_neg (show ¬ sp.lastKnownNodeCountForNodeCountCheck ≠
              sigCount sig (t + 1) from by omega)]
          have hmn : mutationTick (sigMutationEnv gcb sig) (t + 1)
              { sm with intervalCount := sm.intervalCount + 1 } =
              { sm with intervalCount := sm.intervalCount + 1
                        steadyStateIntervals := sm.steadyStateIntervals + 1 } := by
            unfold mutationTick sigMutationEnv
            simp only []
            rw [if_neg hsig]
            simp only [List.foldl_nil]
            unfold domMutationsCountObserver
            rw [if_neg (show ¬ sm.mutationsCount > 0 from by omega)]
          rw [hpn, hmn]
          exact ih (t + 1) _ _
            (show sp.steadyStateIntervals + 1 = sm.steadyStateIntervals + 1
              from by omega)
            (show sp.intervalCount + 1 = sm.intervalCount + 1 from by omega)
            (show sp.lastKnownNodeCountForNodeCountCheck = sigCount sig (t + 1)
              from by omega)
            (show sm.lastKnownNodeCountForMutationEvent = sigCount sig (t + 1)
              from by omega)
            hmc

/-- Claim C8 (amended): for every synthetic per-tick change sequence
`sig`, the watch driven by the mutation-based strategy
(`_domMutationsCountObserver` fed by the mutation callback) and the watch
driven by the part_000 polling-based strategy (`_nodeCountChangeObserver`,
which resets the steady counter on change) reach the same terminal
verdict at the same tick — loaded at the same tick, or timeout at the
same tick.  The `load-checker.js` copy of the polling observer is
excluded: it fails this equivalence (see its counterexample). -/
theorem c8_part000_strategies_reach_same_verdict (cfg : Config)
    (gcb cbOk : Bool) (sig : Nat → Bool) (fuel : Nat) :
    watchOutcome (watchForLoad cfg (sigPollingEnv gcb sig) cbOk fuel initialState) =
    watchOutcome (watchForLoad cfg (sigMutationEnv gcb sig) cbOk fuel initialState) := by
  by_cases hv : cfg.exitRegardlessAfterMaxIntervals ≤
      cfg.readyAfterNSteadyStateIntervals
  · have h1 : watchForLoad cfg (sigPollingEnv gcb sig) cbOk fuel initialState =
        Except.error (CallError.configurationError,
          { initialState with usedInstance := true }) := by
      unfold watchForLoad callWhenReadyToGo validateConfiguration
      rw [if_pos (ge_iff_le.mpr hv)]
      rfl
    have h2 : watchForLoad cfg (sigMutationEnv gcb sig) cbOk fuel initialState =
        Except.error (CallError.configurationError,
          { initialState with usedInstance := true }) := by
      unfold watchForLoad callWhenReadyToGo validateConfiguration
      rw [if_pos (ge_iff_le.mpr hv)]
      rfl
    rw [h1, h2]
  · have hcallp : callWhenReadyToGo cfg (sigPollingEnv gcb sig).mutationSupported
        initialState =
        Except.ok { initialState with
          usedInstance := true
          scheduledObserver := some Strategy.pollingBased
          intervalActive := true
          callbackRegistered := true } := by
      unfold callWhenReadyToGo validateConfiguration
      rw [if_neg (by simp [initialState]), if_neg (by omega)]
      rfl
    have hcallm : callWhenReadyToGo cfg (sigMutationEnv gcb sig).mutationSupported
        initialState =
        Except.ok { initialState with
          usedInstance := true
          observerConnected := true
          scheduledObserver := some Strategy.mutationBased
          intervalActive := true
          callbackRegistered := true } := by
      unfold callWhenReadyToGo validateConfiguration
      rw [if_neg (by simp [initialState]), if_neg (by omega)]
      rfl
    unfold watchForLoad
    rw [hcallp, hcallm]
    show (driveLoop cfg gcb cbOk (pollingTick (sigPollingEnv gcb sig)) fuel 0
        { initialState with
          usedInstance := true
          scheduledObserver := some Strategy.pollingBased
          intervalActive := true
          callbackRegistered := true }).verdict =
      (driveLoop cfg gcb cbOk (mutationTick (sigMutationEnv gcb sig)) fuel 0
        { initialState with
          usedInstance := true
          observerConnected := true
          scheduledObserver := some Strategy.mutationBased
          intervalActive := true
          callbackRegistered := true }).verdict
    exact driveLoop_sig_equiv cfg gcb cbOk sig fuel 0 _ _ rfl rfl rfl rfl rfl

/-- Counterexample for Claim C8 as stated over the `load-checker.js` copy
of `_nodeCountChangeObserver`: on the synthetic sequence with a single
change in the window before tick `2` (element counts `0,0,1,1,1,1,…`),
the `load-checker.js` polling watch declares the page loaded at tick `6`,
while the mutation-based watch on the same sequence declares it loaded at
tick `7` — the js copy never loses its accumulated steady intervals at
the change tick, so the verdicts disagree. -/
theorem c8_public_js_polling_diverges_counterexample :
    (driveLoop defaultConfig true true
        (pollingTickPublicJs (sigPollingEnv true (fun t => t == 2))) 30 0
        (setupLoadChecker false initialState)).verdict = some (true, 6) ∧
    (driveLoop defaultConfig true true
        (mutationTick (sigMutationEnv true (fun t => t == 2))) 30 0
        (setupLoadChecker true initialState)).verdict = some (true, 7) := by
  refine ⟨rfl, rfl⟩

end LoadChecker
